import Mathlib

/-!
Verification development for the deckster analytics microservice.

The Python sources under `src/` are shallowly embedded below:
JSON-compatible values become the `Val` inductive, Python dicts become
association lists (`Item`), fallible code returns `Except`, and the
gateway / executor interactions with the outside world (sockets,
subprocesses, the file system) are driven by explicit environment
records so every function is a total, executable Lean definition.
-/

/-- A JSON-compatible Python value as it appears in the message and data
dictionaries handled by this service.  Nested containers are not needed by
any of the facts proved below, so the embedding keeps values flat. -/
inductive Val where
  | null
  | bool (b : Bool)
  | num (q : ℚ)
  | str (s : String)
deriving DecidableEq, Repr

/-- A Python dict with string keys (keys are unique in every dict the
service builds; lookup returns the first binding). -/
abbrev Item := List (String × Val)

/-- Look a key up in a dict. -/
def py_lookup (item : Item) (k : String) : Option Val :=
  (item.find? (fun kv => kv.1 == k)).map (·.2)

/-- Python `k in item`. -/
def has_key (item : Item) (k : String) : Bool :=
  (py_lookup item k).isSome

/-- Python `item.get(k)` — `None` (here `Val.null`) when the key is absent. -/
def py_get (item : Item) (k : String) : Val :=
  (py_lookup item k).getD .null

/-- Python `item.get(k, d)` — the default is used only when the key is absent. -/
def py_get_d (item : Item) (k : String) (d : Val) : Val :=
  (py_lookup item k).getD d

/-- Python truthiness of a value. -/
def Val.truthy : Val → Bool
  | .null => false
  | .bool b => b
  | .num q => q != 0
  | .str s => s != ""

/-- Python `a or b`: the first operand when it is truthy, otherwise the second. -/
def py_or (a b : Val) : Val :=
  if a.truthy then a else b

/-- Python `str(v)`.  Only the string and `None` cases are ever rendered by
the facts proved below; numeric rendering uses the exact rational form. -/
def Val.pyStr : Val → String
  | .null => "None"
  | .bool true => "True"
  | .bool false => "False"
  | .num q => toString q
  | .str s => s

/-- Parse the digits of a decimal numeral. -/
def digits_to_nat (l : List Char) : Option ℕ :=
  if l.isEmpty then none
  else l.foldlM (fun acc c => if c.isDigit then some (acc * 10 + (c.toNat - 48)) else none) 0

/-- Parse a plain decimal literal (optional sign, integer part, optional
fractional part).  Exponents, underscores, `inf`/`nan` and surrounding
whitespace — all irrelevant to the facts proved below — are not modelled. -/
def parse_float? (s : String) : Option ℚ :=
  let core : List Char → Option ℚ := fun cs =>
    let intPart := cs.takeWhile Char.isDigit
    let rest := cs.dropWhile Char.isDigit
    match rest with
    | [] => (digits_to_nat intPart).map (fun n => (n : ℚ))
    | '.' :: frac =>
      if frac.all Char.isDigit && !(intPart.isEmpty && frac.isEmpty) then
        (digits_to_nat (intPart ++ frac)).map (fun n => (n : ℚ) / (10 : ℚ) ^ frac.length)
      else none
    | _ => none
  match s.data with
  | '-' :: r => (core r).map (fun q => -q)
  | '+' :: r => core r
  | r => core r

/-- Python `float(v)`: numbers pass through, booleans coerce to 0/1, numeric
strings parse, everything else raises (modelled as `Except.error`). -/
def Val.pyFloat : Val → Except String ℚ
  | .num q => .ok q
  | .bool b => .ok (if b then 1 else 0)
  | .str s =>
    match parse_float? s with
    | some q => .ok q
    | none => .error ("could not convert string to float: " ++ s)
  | .null => .error "float() argument must be a string or a real number, not NoneType"

/-- Whether `p` is an initial segment of `s` (on character lists). -/
def list_starts (s p : List Char) : Bool :=
  match s, p with
  | _, [] => true
  | [], _ => false
  | c :: cs, d :: ds => c == d && list_starts cs ds

/-- Scan for the first occurrence of a (non-empty) pattern, returning the
characters before it and the characters after it. -/
def break_on (s pat : List Char) : Option (List Char × List Char) :=
  match s with
  | [] => if pat.isEmpty then some ([], []) else none
  | c :: cs =>
    if list_starts (c :: cs) pat then some ([], (c :: cs).drop pat.length)
    else
      match break_on cs pat with
      | some (a, b) => some (c :: a, b)
      | none => none

/-- Python `pat in s` on strings (substring containment). -/
def str_contains (s pat : String) : Bool :=
  (break_on s.data pat.data).isSome

/-- Python `s.split(sep, 1)`: split on the first occurrence only. -/
def split_once (s sep : String) : List String :=
  match break_on s.data sep.data with
  | some (a, b) => [String.mk a, String.mk b]
  | none => [s]

/-- Python's ASCII whitespace (the only kind the embedded strings carry). -/
def is_py_space (c : Char) : Bool :=
  c == ' ' || c == '\t' || c == '\n' || c == '\r' || c == '\x0b' || c == '\x0c'

/-- Python `s.strip()`. -/
def py_strip (s : String) : String :=
  String.mk (((s.data.dropWhile is_py_space).reverse.dropWhile is_py_space).reverse)

/-- Python `s.lower()` (ASCII case folding suffices for the keyword tests). -/
def py_lower (s : String) : String :=
  String.mk (s.data.map Char.toLower)

/-- Python `s[:n]`. -/
def str_take (s : String) (n : ℕ) : String :=
  String.mk (s.data.take n)

/-- One step bounded scan for Python `s.replace(pat, rep)`; the fuel bounds
the number of characters consumed and is instantiated to the full length. -/
def replace_fuel : ℕ → List Char → List Char → List Char → List Char
  | 0, s, _, _ => s
  | _ + 1, [], _, _ => []
  | n + 1, c :: cs, pat, rep =>
    if !pat.isEmpty && list_starts (c :: cs) pat then
      rep ++ replace_fuel n ((c :: cs).drop pat.length) pat rep
    else c :: replace_fuel n cs pat rep

/-- Python `s.replace(pat, rep)`: replace every (non-overlapping, leftmost)
occurrence. -/
def py_replace (s pat rep : String) : String :=
  String.mk (replace_fuel (s.data.length + 1) s.data pat.data rep.data)

/-! ## src/analytics_utils_v2/data_transformer.py — SmartDataTransformer -/

/-- `field_mappings['label']`. -/
def label_fields : List String := ["label", "name", "category", "x", "key", "item", "id", "title"]

/-- `field_mappings['value']`. -/
def value_fields : List String :=
  ["value", "y", "amount", "count", "total", "quantity", "measure",
   "metric", "score", "price", "sales", "revenue"]

/-- `field_mappings['series']`. -/
def series_fields : List String := ["series", "group", "type", "class", "segment", "product"]

/-- `field_mappings['category']`. -/
def category_fields : List String := ["category", "group", "type", "classification", "segment"]

/-- `field_mappings['time']`. -/
def time_fields : List String :=
  ["date", "time", "timestamp", "period", "month", "year", "day",
   "datetime", "when", "created", "updated"]

/-- `field_mappings['row']`. -/
def row_fields : List String := ["row", "y_category", "vertical", "day", "weekday"]

/-- `field_mappings['col']`. -/
def col_fields : List String := ["col", "column", "x_category", "horizontal", "hour", "time"]

/-- `self.field_mappings.get(field_type, [field_type])`. -/
def field_mappings (field_type : String) : List String :=
  if field_type = "label" then label_fields
  else if field_type = "value" then value_fields
  else if field_type = "series" then series_fields
  else if field_type = "category" then category_fields
  else if field_type = "time" then time_fields
  else if field_type = "row" then row_fields
  else if field_type = "col" then col_fields
  else [field_type]

/-- `SmartDataTransformer._extract_field`.  CPython's `id(item)` in the last
label fallback is an object address; it is modelled by a fixed tag (none of
the facts proved below observe it). -/
def extract_field (item : Item) (field_type : String) : Val :=
  match (field_mappings field_type).find? (fun n => has_key item n) with
  | some n => py_get item n
  | none =>
    if field_type = "label" then
      match item.find? (fun kv =>
          (match kv.2 with | .str _ => true | _ => false)
          && !(kv.1 == "series" || kv.1 == "category" || kv.1 == "type")) with
      | some kv => kv.2
      | none => .str "Item_"
    else .null

/-- The canonical internal record produced by the transformer
(`analytics_utils_v2.models.DataPoint`; the `timestamp` field, set only by
the time-series transform, is not embedded). -/
structure DataPoint where
  label : Val
  value : ℚ
  series : Val := .null
  category : Val := .null
  metadata : List (String × Val) := []
deriving DecidableEq, Repr

/-- `SmartDataTransformer._parse_matrix_position`.  A non-string label
reaching the `'-' in label` test raises a `TypeError` in Python, modelled as
`Except.error`. -/
def parse_matrix_position (item : Item) (label : Val) : Except String (String × String) :=
  if has_key item "row" && has_key item "col" then
    .ok ((py_get item "row").pyStr, (py_get item "col").pyStr)
  else if has_key item "day" && has_key item "hour" then
    .ok ((py_get item "day").pyStr, (py_get item "hour").pyStr)
  else
    match label with
    | .str s =>
      if str_contains s "-" then
        match split_once s "-" with
        | [a, b] => .ok (py_strip a, py_strip b)
        | _ =>
          if str_contains s " " then
            match split_once s " " with
            | [a, b] => .ok (py_strip a, py_strip b)
            | _ => .ok (s, "Value")
          else .ok (s, "Value")
      else if str_contains s " " then
        match split_once s " " with
        | [a, b] => .ok (py_strip a, py_strip b)
        | _ => .ok (s, "Value")
      else .ok (s, "Value")
    | _ => .error "argument of type is not iterable"

/-- `SmartDataTransformer._transform_heatmap_data`: per record, resolve
label and value, skip (with a warning) when the value is missing, resolve
the `(row, col)` position, and emit a `DataPoint` with row/col metadata. -/
def transform_heatmap_data : List Item → Except String (List DataPoint)
  | [] => .ok []
  | item :: rest => do
    let label := extract_field item "label"
    let value := extract_field item "value"
    if value = .null then
      transform_heatmap_data rest
    else do
      let rc ← parse_matrix_position item label
      let v ← value.pyFloat
      let ps ← transform_heatmap_data rest
      pure ({ label := label, value := v,
              metadata := [("row", .str rc.1), ("col", .str rc.2)] } :: ps)

/-- `SmartDataTransformer._transform_scatter_data`: the x-coordinate is the
truthiness-based chain `item.get('x') or item.get('satisfaction') or
item.get('x_value')`; a point is emitted only when both coordinates are not
`None`. -/
def transform_scatter_data : List Item → Except String (List DataPoint)
  | [] => .ok []
  | item :: rest => do
    let label := extract_field item "label"
    let x_value := py_or (py_get item "x") (py_or (py_get item "satisfaction") (py_get item "x_value"))
    let y_value := extract_field item "value"
    if x_value ≠ .null ∧ y_value ≠ .null then do
      let yq ← y_value.pyFloat
      let xq ← x_value.pyFloat
      let ps ← transform_scatter_data rest
      pure ({ label := label, value := yq, metadata := [("x", .num xq)] } :: ps)
    else
      transform_scatter_data rest

/-- `analytics_utils_v2.models.DataStatistics`. -/
structure DataStatistics where
  min : ℚ
  max : ℚ
  mean : ℚ
  median : ℚ
  std : ℝ
  total : ℚ
  count : ℕ

/-- `SmartDataTransformer._empty_statistics`. -/
def empty_statistics : DataStatistics :=
  { min := 0, max := 0, mean := 0, median := 0, std := 0, total := 0, count := 0 }

/-- `min(values)` over a nonempty list (0 on empty, never used there). -/
def list_min : List ℚ → ℚ
  | [] => 0
  | x :: xs => xs.foldl min x

/-- `max(values)` over a nonempty list (0 on empty, never used there). -/
def list_max : List ℚ → ℚ
  | [] => 0
  | x :: xs => xs.foldl max x

/-- `statistics.mean(values)`. -/
def list_mean (values : List ℚ) : ℚ :=
  values.sum / values.length

/-- Insert into a sorted list (ascending). -/
def insert_sorted (x : ℚ) : List ℚ → List ℚ
  | [] => [x]
  | y :: ys => if x ≤ y then x :: y :: ys else y :: insert_sorted x ys

/-- `sorted(values)`. -/
def sort_values (l : List ℚ) : List ℚ := l.foldr insert_sorted []

/-- `statistics.median(values)`: middle element of the sorted list, or the
average of the two middle elements for an even count. -/
def list_median (l : List ℚ) : ℚ :=
  let s := sort_values l
  let n := s.length
  if n = 0 then 0
  else if n % 2 = 1 then s.getD (n / 2) 0
  else (s.getD (n / 2 - 1) 0 + s.getD (n / 2) 0) / 2

/-- The square of `statistics.stdev(values)`: sum of squared deviations from
the mean over `n - 1`. -/
def sample_variance (values : List ℚ) : ℚ :=
  (values.map (fun x => (x - list_mean values) ^ 2)).sum / ((values.length : ℚ) - 1)

/-- `SmartDataTransformer._calculate_statistics`: empty input yields the
all-zero record; `std` is the sample standard deviation guarded to 0 for
fewer than two values. -/
noncomputable def calculate_statistics (values : List ℚ) : DataStatistics :=
  if values.isEmpty then empty_statistics
  else
    { min := list_min values
      max := list_max values
      mean := list_mean values
      median := list_median values
      std := if 1 < values.length then Real.sqrt ((sample_variance values : ℚ) : ℝ) else 0
      total := values.sum
      count := values.length }

/-! ## src/analytics_utils_v2/axis_mapper.py -/

/-- `analytics_utils_v2.models.ChartType`: the closed enumeration of the 23
chart types. -/
inductive ChartType where
  | line_chart | step_chart | area_chart | stacked_area_chart
  | bar_chart_vertical | bar_chart_horizontal | grouped_bar | stacked_bar
  | histogram | box_plot | violin_plot
  | scatter_plot | bubble_chart | hexbin
  | pie_chart | waterfall | funnel
  | radar_chart | heatmap
  | error_bar | control_chart | pareto
  | gantt
deriving DecidableEq, Repr

/-- The `AXIS_MAPPINGS` dict inside `get_axis_labels`, as a partial map
(`dict.get` semantics). -/
def AXIS_MAPPINGS : ChartType → Option (String × String × String × String)
  | .line_chart => some ("Period", "Value", "temporal", "numerical")
  | .step_chart => some ("Time", "Value", "temporal", "numerical")
  | .area_chart => some ("Period", "Value", "temporal", "numerical")
  | .stacked_area_chart => some ("Period", "Value", "temporal", "numerical")
  | .bar_chart_vertical => some ("Category", "Value", "categorical", "numerical")
  | .bar_chart_horizontal => some ("Value", "Category", "numerical", "categorical")
  | .grouped_bar => some ("Category", "Value", "categorical", "numerical")
  | .stacked_bar => some ("Category", "Value", "categorical", "numerical")
  | .histogram => some ("Value", "Frequency", "numerical", "count")
  | .box_plot => some ("Category", "Distribution", "categorical", "numerical")
  | .violin_plot => some ("Category", "Distribution", "categorical", "numerical")
  | .scatter_plot => some ("X Value", "Y Value", "numerical", "numerical")
  | .bubble_chart => some ("X Value", "Y Value", "numerical", "numerical")
  | .hexbin => some ("X Value", "Y Value", "numerical", "numerical")
  | .pie_chart => some ("Category", "Percentage", "categorical", "percentage")
  | .waterfall => some ("Stage", "Change", "categorical", "numerical")
  | .funnel => some ("Stage", "Value", "categorical", "numerical")
  | .radar_chart => some ("Dimension", "Value", "categorical", "numerical")
  | .heatmap => some ("X Category", "Y Category", "categorical", "categorical")
  | .error_bar => some ("Condition", "Measurement", "categorical", "numerical")
  | .control_chart => some ("Sample", "Value", "temporal", "numerical")
  | .pareto => some ("Cause", "Frequency", "categorical", "count")
  | .gantt => some ("Task", "Timeline", "categorical", "temporal")

/-- `get_axis_labels`: the per-type 4-tuple, with the dict-get default
`("X", "Y", "categorical", "numerical")`. -/
def get_axis_labels (chart_type : ChartType) : String × String × String × String :=
  (AXIS_MAPPINGS chart_type).getD ("X", "Y", "categorical", "numerical")

/-- `infer_axis_from_content`: starts from `get_axis_labels` defaults,
lower-cases the content, and applies the six ordered substring-triggered
overrides. -/
def infer_axis_from_content (content : String) (chart_type : ChartType) : String × String :=
  let defaults := get_axis_labels chart_type
  let default_x := defaults.1
  let default_y := defaults.2.1
  let content_lower := py_lower content
  let default_x :=
    if ["quarterly", "monthly", "yearly", "daily", "weekly"].any (fun w => str_contains content_lower w) then
      if chart_type ∈ [ChartType.line_chart, ChartType.area_chart, ChartType.bar_chart_vertical] then
        "Time Period"
      else default_x
    else default_x
  let default_y :=
    if ["sales", "revenue", "income", "profit"].any (fun w => str_contains content_lower w) then
      if chart_type ∉ [ChartType.pie_chart, ChartType.funnel] then "Amount ($)" else default_y
    else default_y
  let default_x :=
    if str_contains content_lower "product" then
      if chart_type ∈ [ChartType.bar_chart_vertical, ChartType.bar_chart_horizontal] then
        "Product"
      else default_x
    else default_x
  let default_x :=
    if ["department", "team", "division"].any (fun w => str_contains content_lower w) then
      if chart_type ∈ [ChartType.bar_chart_vertical, ChartType.grouped_bar] then
        "Department"
      else default_x
    else default_x
  let dxy :=
    if str_contains content_lower "performance" then
      if chart_type ∈ [ChartType.radar_chart] then ("Metric", "Score") else (default_x, default_y)
    else (default_x, default_y)
  let default_x := dxy.1
  let default_y := dxy.2
  let default_y :=
    if ["distribution", "spread", "range"].any (fun w => str_contains content_lower w) then
      if chart_type ∈ [ChartType.histogram] then "Count" else default_y
    else default_y
  (default_x, default_y)

/-- The trigger keywords of `infer_axis_from_content`, in rule order. -/
def trigger_keywords : List String :=
  ["quarterly", "monthly", "yearly", "daily", "weekly",
   "sales", "revenue", "income", "profit",
   "product",
   "department", "team", "division",
   "performance",
   "distribution", "spread", "range"]

/-! ## src/analytics_utils_v2/local_executor.py — LocalExecutor -/

/-- The ordered interpreter candidates tried by `execute_chart_code`. -/
def python_options : List String :=
  ["/Library/Frameworks/Python.framework/Versions/3.13/bin/python3",
   "python3",
   "/usr/bin/python3",
   "/usr/local/bin/python3"]

/-- The backend-forcing preamble prepended when the source has no plotting
imports anywhere. -/
def backend_code : String := "import matplotlib\nmatplotlib.use(\x27Agg\x27)\n"

/-- The backend/save-path rewriting performed on the supplied source before
execution (string surgery of `execute_chart_code`, steps 2-4 of the spec). -/
def modified_code (python_code output_file : String) : String :=
  let code :=
    if !(str_contains python_code "matplotlib.use") then
      if str_contains python_code "import matplotlib" then
        py_replace python_code "import matplotlib.pyplot"
          "import matplotlib\nmatplotlib.use(\x27Agg\x27)\nimport matplotlib.pyplot"
      else backend_code ++ python_code
    else python_code
  let code := py_replace code "plt.savefig(\x27output.png\x27" ("plt.savefig(\x27" ++ output_file ++ "\x27")
  if !(str_contains code "plt.savefig") then
    py_replace code "plt.show()"
      ("plt.savefig(\x27" ++ output_file ++ "\x27, dpi=100, bbox_inches=\x27tight\x27)\nplt.show()")
  else code

/-- What one `subprocess.run([cmd, code_file], ...)` attempt does:
the interpreter is absent (`FileNotFoundError`, the loop continues), the run
exceeds the 30 s limit (`TimeoutExpired` propagates), or the run completes
with some diagnostic output and, possibly, the output PNG.  The PNG content
is carried already base64-encoded (the file read plus `b64encode` of the
source is modelled as the environment handing over the encoded bytes). -/
inductive RunOutcome where
  | notFound
  | timeout
  | completed (stderr : String) (output_png : Option String)
deriving DecidableEq, Repr

/-- The world `execute_chart_code` runs against: a temporary directory name,
the behaviour of each interpreter on each source text, and an optional
unexpected exception (e.g. temp-dir creation failure). -/
structure ExecEnv where
  tmpdir : String
  run : String → String → RunOutcome
  unexpected_exc : Option String := none

/-- A Python exception crossing `execute_chart_code`'s internal boundary. -/
inductive PyExc where
  | timeoutExpired
  | exc (msg : String)
deriving DecidableEq, Repr

/-- The result dictionaries `execute_chart_code` returns: the `image`-tagged
success shape or the `error`-tagged failure shape. -/
inductive ChartResult where
  | image (content : String)
  | errorResult (message : String)
deriving DecidableEq, Repr

/-- The first interpreter attempt that does not raise `FileNotFoundError`. -/
def first_found : List RunOutcome → Option RunOutcome
  | [] => none
  | .notFound :: rest => first_found rest
  | r :: _ => some r

/-- The body of `execute_chart_code`'s `try` block: rewrite the source, try
the interpreters in order, raise on timeout or when none is found, and
otherwise check for the output file. -/
def execute_body (python_code : String) (env : ExecEnv) : Except PyExc ChartResult :=
  match env.unexpected_exc with
  | some m => .error (.exc m)
  | none =>
    let output_file := env.tmpdir ++ "/output.png"
    let code := modified_code python_code output_file
    match first_found (python_options.map (fun cmd => env.run cmd code)) with
    | none => .error (.exc "No Python executable found")
    | some .timeout => .error .timeoutExpired
    | some .notFound => .error (.exc "No Python executable found")
    | some (.completed stderr out) =>
      match out with
      | some png => .ok (.image png)
      | none => .ok (.errorResult ("No output generated: " ++ str_take stderr 200))

/-- `LocalExecutor.execute_chart_code`: the `try`/`except` wrapper that turns
`TimeoutExpired` into the fixed timeout message and any other exception into
an error result carrying its text.  The codomain keeps the `Except` layer so
that "never raises past its own boundary" is the provable statement that the
result is always `.ok`. -/
def execute_chart_code (python_code : String) (env : ExecEnv) : Except PyExc ChartResult :=
  match execute_body python_code env with
  | .ok r => .ok r
  | .error .timeoutExpired => .ok (.errorResult "Execution timed out")
  | .error (.exc m) => .ok (.errorResult m)

/-! ## src/config/constants.py and src/config/settings.py -/

/-- `WS_MESSAGE_TYPES`: the closed list of valid wire message types. -/
def WS_MESSAGE_TYPES : List String :=
  ["analytics_request", "analytics_response", "status", "error", "control", "ping", "pong"]

/-- The slice of `Settings` the health endpoint and the LLM accessor read. -/
structure Settings where
  google_api_key : String
  openai_api_key : String
deriving DecidableEq, Repr

/-- `Settings.has_llm_configured`: `bool(google_api_key or openai_api_key)`
(Python string truthiness: non-empty). -/
def has_llm_configured (s : Settings) : Bool :=
  s.google_api_key != "" || s.openai_api_key != ""

/-! ## src/main.py — health_check -/

/-- The observable part of the `GET /health` response. -/
structure HealthReport where
  status_code : ℕ
  status : String
  websocket_handler : String
  llm : String
deriving DecidableEq, Repr

/-- `health_check`: status starts `"healthy"`, degrades when the WebSocket
handler is not initialized, degrades when `settings.google_api_key` is
falsy, and the HTTP code is 200 exactly when the final status is
`"healthy"`.  `openai_api_key` is never consulted here. -/
def health_check (handler_initialized : Bool) (s : Settings) : HealthReport :=
  let status := "healthy"
  let handler_comp := if handler_initialized then "ready" else "not_initialized"
  let status := if handler_initialized then status else "degraded"
  let llm_comp := if s.google_api_key != "" then "configured" else "not_configured"
  let status := if s.google_api_key != "" then status else "degraded"
  { status_code := if status = "healthy" then 200 else 503
    status := status
    websocket_handler := handler_comp
    llm := llm_comp }

/-! ## src/api/websocket_handler.py — WebSocketHandler -/

/-- A typed outbound message, as built by `_send_status`,
`_send_analytics_response`, `_send_error` and `_send_control_message`. -/
inductive Outbound where
  | statusMsg (subtype : String) (text : String) (progress : ℚ)
  | analyticsResponse (correlation_id request_id : Val)
  | errorMsg (code : String) (correlation_id : Val)
  | controlMsg (subtype : String)
deriving DecidableEq, Repr

/-- The key under which `_handle_message` inserts the analytics task into
`active_requests`: `"{session_id}_{request_id}"` with
`request_id = message.get("correlation_id", message.get("message_id"))`. -/
def route_key (session_id : String) (message : Item) : String :=
  let request_id := py_get_d message "correlation_id" (py_get_d message "message_id" .null)
  session_id ++ "_" ++ request_id.pyStr

/-- The key popped by `_handle_analytics_request`'s `finally` block:
`"{session_id}_{request_id}"` with
`request_id = message.get("request_id", correlation_id)` and
`correlation_id = message.get("correlation_id", message.get("message_id"))`. -/
def finally_key (session_id : String) (message : Item) : String :=
  let correlation_id := py_get_d message "correlation_id" (py_get_d message "message_id" .null)
  let request_id := py_get_d message "request_id" correlation_id
  session_id ++ "_" ++ request_id.pyStr

/-- `active_requests` after one `analytics_request` unit of work has been
routed (dict insert under `route_key`) and has run to completion (the
`finally` block's `pop(finally_key, None)`).  The table is modelled by its
key set; dict keys are unique, so removing every copy models `pop`. -/
def active_after_request (session_id : String) (message : Item) (active : List String) : List String :=
  let inserted := route_key session_id message :: active
  inserted.filter (fun k => k ≠ finally_key session_id message)

/-- How far the `try` block of `_handle_analytics_request` gets: either the
whole generation pipeline succeeds, or an exception (theme validation,
request validation, engine failure, ...) is raised after `k` outbound sends
have already happened. -/
inductive GenOutcome where
  | success
  | failAfter (k : ℕ)

/-- The four fixed progress updates of the unit of work, in order. -/
def status_seq : List Outbound :=
  [.statusMsg "processing" "Initializing analytics generation..." (1/10),
   .statusMsg "processing" "Analyzing request and selecting chart type..." (1/4),
   .statusMsg "processing" "Generating chart..." (1/2),
   .statusMsg "processing" "Finalizing response..." (9/10)]

/-- The outbound messages produced by `_handle_analytics_request`: the full
status sequence then the response on success; on an exception, the statuses
already sent followed by a `GENERATION_FAILED` error. -/
def handle_analytics_outputs (message : Item) (g : GenOutcome) : List Outbound :=
  let correlation_id := py_get_d message "correlation_id" (py_get_d message "message_id" .null)
  let request_id := py_get_d message "request_id" correlation_id
  match g with
  | .success => status_seq ++ [.analyticsResponse correlation_id request_id]
  | .failAfter k => status_seq.take k ++ [.errorMsg "GENERATION_FAILED" correlation_id]

/-- `_handle_message`'s dispatch, flattened to the outbound messages the
inbound message gives rise to (for `analytics_request` these are the ones
the spawned unit of work sends, driven by the `GenOutcome` oracle):
`analytics_request` starts the unit of work, `ping` and `control`/`ping`
answer `pong`, a `control` message with any other subtype falls through the
inner `if` with no reply, and any other type is answered with an
`UNKNOWN_MESSAGE_TYPE` error echoing `message.get("correlation_id")`. -/
def handle_message_outputs (message : Item) (g : GenOutcome) : List Outbound :=
  let message_type := py_get message "type"
  if message_type = .str "analytics_request" then
    handle_analytics_outputs message g
  else if message_type = .str "ping" then
    [.controlMsg "pong"]
  else if message_type = .str "control" then
    (if py_get message "subtype" = .str "ping" then [.controlMsg "pong"] else [])
  else
    [.errorMsg "UNKNOWN_MESSAGE_TYPE" (py_get message "correlation_id")]

/-- The message types `_handle_message` dispatches on without falling into
the `UNKNOWN_MESSAGE_TYPE` branch. -/
def accepted_types : List String := ["analytics_request", "ping", "control"]

/-! ## Helper lemmas -/

/-- A key that is not in the dict reads back as `None`. -/
theorem py_get_null_of_has_key_false (item : Item) (k : String)
    (h : has_key item k = false) : py_get item k = Val.null := by
  unfold has_key at h
  unfold py_get
  cases hl : py_lookup item k with
  | none => rfl
  | some v => rw [hl] at h; simp at h

/-- When no value-role field name occurs in the record, `_extract_field`
returns `None` for the `value` role. -/
theorem extract_field_value_null (item : Item)
    (h : ∀ k ∈ value_fields, has_key item k = false) :
    extract_field item "value" = Val.null := by
  have hmap : field_mappings "value" = value_fields := by decide
  have hfind : (field_mappings "value").find? (fun n => has_key item n) = none := by
    rw [hmap, List.find?_eq_none]
    intro x hx
    simp [h x hx]
  simp only [extract_field, hfind]
  rw [if_neg (by decide)]

/-! ## Claim theorems -/

/-- C4: for heatmap data, `(row, col)` is resolved by the ordered rules —
explicit `row`/`col` fields first, then `day`/`hour`, then splitting the
label on the first `-`, then on the first space, then `(label, "Value")` —
and on the input `[Mon-09:00 ↦ 450, Tue-12:00 ↦ 690]` the transformer
produces exactly the two DataPoints with row/col metadata `(Mon, 09:00)`
and `(Tue, 12:00)` and values 450 and 690. -/
theorem c4_heatmap_row_col_resolution :
    transform_heatmap_data
        [[("label", Val.str "Mon-09:00"), ("value", Val.num 450)],
         [("label", Val.str "Tue-12:00"), ("value", Val.num 690)]] =
      .ok [{ label := Val.str "Mon-09:00", value := 450,
             metadata := [("row", Val.str "Mon"), ("col", Val.str "09:00")] },
           { label := Val.str "Tue-12:00", value := 690,
             metadata := [("row", Val.str "Tue"), ("col", Val.str "12:00")] }] ∧
    parse_matrix_position [("row", Val.str "R"), ("col", Val.str "C"), ("day", Val.str "D"),
        ("hour", Val.str "H")] (Val.str "A-B") = .ok ("R", "C") ∧
    parse_matrix_position [("day", Val.str "D"), ("hour", Val.str "H")] (Val.str "A-B") =
      .ok ("D", "H") ∧
    parse_matrix_position [] (Val.str "A-B C") = .ok ("A", "B C") ∧
    parse_matrix_position [] (Val.str "A B") = .ok ("A", "B") ∧
    parse_matrix_position [] (Val.str "AB") = .ok ("AB", "Value") :=
  ⟨rfl, rfl, rfl, rfl, rfl, rfl⟩

/-- C5: a heatmap record containing none of the recognized value-role field
names yields no DataPoint, and a DataPoint is emitted for a record only when
some recognized value field is present in it. -/
theorem c5_unrecognized_value_field_dropped :
    (∀ item : Item, (∀ k ∈ value_fields, has_key item k = false) →
      transform_heatmap_data [item] = .ok []) ∧
    (∀ (item : Item) (ps : List DataPoint), transform_heatmap_data [item] = .ok ps →
      ps ≠ [] → ∃ k ∈ value_fields, has_key item k = true) := by
  have main : ∀ item : Item, (∀ k ∈ value_fields, has_key item k = false) →
      transform_heatmap_data [item] = .ok [] := by
    intro item h
    have hval := extract_field_value_null item h
    simp [transform_heatmap_data, hval]
  refine ⟨main, ?_⟩
  intro item ps hps hne
  by_contra hcon
  push_neg at hcon
  have hall : ∀ k ∈ value_fields, has_key item k = false := by
    intro k hk
    simpa using hcon k hk
  rw [main item hall] at hps
  exact hne (by injection hps with h; exact h.symm)

/-- C5 witness: the record with a non-default value field name `traffic`
yields no DataPoint. -/
theorem c5_witness :
    (∀ k ∈ value_fields,
      has_key [("day", Val.str "Monday"), ("hour", Val.str "9AM"), ("traffic", Val.num 450)] k
        = false) ∧
    transform_heatmap_data
        [[("day", Val.str "Monday"), ("hour", Val.str "9AM"), ("traffic", Val.num 450)]] =
      .ok [] :=
  ⟨by decide, c5_unrecognized_value_field_dropped.1 _ (by decide)⟩

/-- C6: statistics over `[10, 20, 30]` are `min=10, max=30, mean=20,
median=20, total=60, count=3` with `std` the sample standard deviation
(which is exactly 10 here); `std` is 0 whenever fewer than two values are
present; and the empty value list yields the all-zero record, not an
error. -/
theorem c6_statistics :
    ((calculate_statistics [10, 20, 30]).min = 10 ∧
     (calculate_statistics [10, 20, 30]).max = 30 ∧
     (calculate_statistics [10, 20, 30]).mean = 20 ∧
     (calculate_statistics [10, 20, 30]).median = 20 ∧
     (calculate_statistics [10, 20, 30]).total = 60 ∧
     (calculate_statistics [10, 20, 30]).count = 3 ∧
     (calculate_statistics [10, 20, 30]).std = Real.sqrt ((sample_variance [10, 20, 30] : ℚ) : ℝ) ∧
     (calculate_statistics [10, 20, 30]).std = 10) ∧
    (∀ values : List ℚ, values.length < 2 → (calculate_statistics values).std = 0) ∧
    (calculate_statistics [] = empty_statistics ∧
     (calculate_statistics []).min = 0 ∧ (calculate_statistics []).max = 0 ∧
     (calculate_statistics []).mean = 0 ∧ (calculate_statistics []).median = 0 ∧
     (calculate_statistics []).std = 0 ∧ (calculate_statistics []).total = 0 ∧
     (calculate_statistics []).count = 0) := by
  have hvar : sample_variance [10, 20, 30] = 100 := by
    norm_num [sample_variance, list_mean]
  have hstd : (calculate_statistics [10, 20, 30]).std =
      Real.sqrt ((sample_variance [10, 20, 30] : ℚ) : ℝ) := by
    simp [calculate_statistics]
  refine ⟨⟨by norm_num [calculate_statistics, list_min, min_def],
          by norm_num [calculate_statistics, list_max, max_def],
          by norm_num [calculate_statistics, list_mean],
          by norm_num [calculate_statistics, list_median, sort_values, insert_sorted],
          by norm_num [calculate_statistics],
          by norm_num [calculate_statistics],
          hstd, ?_⟩, ?_, ?_⟩
  · rw [hstd, hvar]
    rw [show (((100 : ℚ) : ℝ)) = (10 : ℝ) ^ 2 by norm_num]
    rw [Real.sqrt_sq (by norm_num)]
  · intro values hlen
    match values with
    | [] => simp [calculate_statistics, empty_statistics]
    | [x] => simp [calculate_statistics]
    | a :: b :: t => simp at hlen; omega
  · exact ⟨rfl, rfl, rfl, rfl, rfl, rfl, rfl, rfl⟩

/-- C6 witness: a single-element value list has `std = 0`. -/
theorem c6_statistics_witness : (calculate_statistics [(5 : ℚ)]).std = 0 :=
  c6_statistics.2.1 [(5 : ℚ)] (by norm_num)

/-- C8: when the lower-cased content contains none of the trigger keywords
as substrings, `infer_axis_from_content` returns exactly the (x-label,
y-label) pair of `get_axis_labels` for the chart type (and, being a total
function, it never fails). -/
theorem c8_infer_axis_defaults_on_irrelevant_content :
    ∀ (content : String) (chart_type : ChartType),
      trigger_keywords.all (fun w => !str_contains (py_lower content) w) = true →
      infer_axis_from_content content chart_type =
        ((get_axis_labels chart_type).1, (get_axis_labels chart_type).2.1) := by
  intro content chart_type h
  simp only [trigger_keywords, List.all_cons, List.all_nil, Bool.and_eq_true,
    Bool.not_eq_true'] at h
  obtain ⟨h1, h2, h3, h4, h5, h6, h7, h8, h9, h10, h11, h12, h13, h14, h15, h16, h17, -⟩ := h
  simp [infer_axis_from_content, h1, h2, h3, h4, h5, h6, h7, h8, h9, h10,
    h11, h12, h13, h14, h15, h16, h17]

/-- C8 witness: irrelevant content leaves the pie-chart defaults intact. -/
theorem c8_infer_axis_defaults_witness :
    trigger_keywords.all (fun w => !str_contains (py_lower "hello world") w) = true ∧
    infer_axis_from_content "hello world" ChartType.pie_chart =
      ((get_axis_labels ChartType.pie_chart).1, (get_axis_labels ChartType.pie_chart).2.1) :=
  ⟨by decide, c8_infer_axis_defaults_on_irrelevant_content "hello world" ChartType.pie_chart
      (by decide)⟩

/-- C9: for scatter/bubble data the x-coordinate is resolved with Python
truthiness, so a record whose `x` field is present but 0 (and which has no
`satisfaction` or `x_value` field) yields no DataPoint even though a
recognized value field is present. -/
theorem c9_scatter_zero_x_dropped :
    ∀ item : Item,
      py_get item "x" = Val.num 0 →
      has_key item "satisfaction" = false →
      has_key item "x_value" = false →
      extract_field item "value" ≠ Val.null →
      transform_scatter_data [item] = .ok [] := by
  intro item hx hs hxv _hv
  have h1 : py_get item "satisfaction" = Val.null := py_get_null_of_has_key_false item _ hs
  have h2 : py_get item "x_value" = Val.null := py_get_null_of_has_key_false item _ hxv
  simp [transform_scatter_data, hx, h1, h2, py_or, Val.truthy]

/-- C9 witness: the record with `x = 0` and `value = 5` yields no DataPoint. -/
theorem c9_scatter_zero_x_dropped_witness :
    py_get [("x", Val.num 0), ("value", Val.num 5)] "x" = Val.num 0 ∧
    has_key [("x", Val.num 0), ("value", Val.num 5)] "satisfaction" = false ∧
    has_key [("x", Val.num 0), ("value", Val.num 5)] "x_value" = false ∧
    extract_field [("x", Val.num 0), ("value", Val.num 5)] "value" ≠ Val.null ∧
    transform_scatter_data [[("x", Val.num 0), ("value", Val.num 5)]] = .ok [] :=
  ⟨by decide, by decide, by decide, by decide,
   c9_scatter_zero_x_dropped _ (by decide) (by decide) (by decide) (by decide)⟩

/-- C7: `execute_chart_code` never raises past its own boundary — for every
source text and every environment the catch wrapper yields a result value
(`.ok`) — and the particular failure modes map to the specified
error results: a subprocess timeout yields exactly "Execution timed out", a
completed run that leaves no output file yields an error carrying the first
200 characters of the diagnostic output, and an exhausted interpreter list
yields the no-interpreter error. -/
theorem c7_executor_error_boundary :
    (∀ (python_code : String) (env : ExecEnv),
      ∃ r : ChartResult, execute_chart_code python_code env = .ok r) ∧
    (∀ (python_code : String) (env : ExecEnv),
      env.unexpected_exc = none →
      first_found (python_options.map (fun cmd =>
          env.run cmd (modified_code python_code (env.tmpdir ++ "/output.png")))) =
        some .timeout →
      execute_chart_code python_code env = .ok (.errorResult "Execution timed out")) ∧
    (∀ (python_code : String) (env : ExecEnv) (stderr : String),
      env.unexpected_exc = none →
      first_found (python_options.map (fun cmd =>
          env.run cmd (modified_code python_code (env.tmpdir ++ "/output.png")))) =
        some (.completed stderr none) →
      execute_chart_code python_code env =
        .ok (.errorResult ("No output generated: " ++ str_take stderr 200))) ∧
    (∀ (python_code : String) (env : ExecEnv),
      env.unexpected_exc = none →
      first_found (python_options.map (fun cmd =>
          env.run cmd (modified_code python_code (env.tmpdir ++ "/output.png")))) = none →
      execute_chart_code python_code env =
        .ok (.errorResult "No Python executable found")) := by
  refine ⟨?_, ?_, ?_, ?_⟩
  · intro python_code env
    cases hb : execute_body python_code env with
    | ok r => exact ⟨r, by simp [execute_chart_code, hb]⟩
    | error e =>
      cases e with
      | timeoutExpired =>
        exact ⟨.errorResult "Execution timed out", by simp [execute_chart_code, hb]⟩
      | exc m => exact ⟨.errorResult m, by simp [execute_chart_code, hb]⟩
  · intro python_code env hexc hfound
    simp [execute_chart_code, execute_body, hexc, hfound]
  · intro python_code env stderr hexc hfound
    simp [execute_chart_code, execute_body, hexc, hfound]
  · intro python_code env hexc hfound
    simp [execute_chart_code, execute_body, hexc, hfound]

/-- C7 witness: in an environment where every interpreter attempt times out,
the result is the timeout error value. -/
theorem c7_executor_error_boundary_witness :
    (ExecEnv.mk "/tmp/work" (fun _ _ => .timeout) none).unexpected_exc = none ∧
    first_found (python_options.map (fun cmd =>
        (ExecEnv.mk "/tmp/work" (fun _ _ => .timeout) none).run cmd
          (modified_code "plt.show()"
            ((ExecEnv.mk "/tmp/work" (fun _ _ => .timeout) none).tmpdir ++ "/output.png")))) =
      some .timeout ∧
    execute_chart_code "plt.show()" (ExecEnv.mk "/tmp/work" (fun _ _ => .timeout) none) =
      .ok (.errorResult "Execution timed out") :=
  ⟨rfl, rfl,
   c7_executor_error_boundary.2.1 "plt.show()"
     (ExecEnv.mk "/tmp/work" (fun _ _ => .timeout) none) rfl rfl⟩

/-- C1: evaluation at the failing input.  For an `analytics_request` message
carrying a `request_id` different from its `correlation_id`, the key
inserted by `_handle_message` is `"s_c1"` while the `finally` block of
`_handle_analytics_request` pops `"s_r1"`, so after the unit of work
completes the inserted key is still present in `active_requests` — the
in-flight entry leaks instead of being removed. -/
theorem c1_active_requests_leak_on_distinct_request_id :
    route_key "s"
        [("type", Val.str "analytics_request"), ("message_id", Val.str "m1"),
         ("correlation_id", Val.str "c1"), ("request_id", Val.str "r1")] = "s_c1" ∧
    finally_key "s"
        [("type", Val.str "analytics_request"), ("message_id", Val.str "m1"),
         ("correlation_id", Val.str "c1"), ("request_id", Val.str "r1")] = "s_r1" ∧
    active_after_request "s"
        [("type", Val.str "analytics_request"), ("message_id", Val.str "m1"),
         ("correlation_id", Val.str "c1"), ("request_id", Val.str "r1")] [] = ["s_c1"] ∧
    route_key "s"
        [("type", Val.str "analytics_request"), ("message_id", Val.str "m1"),
         ("correlation_id", Val.str "c1"), ("request_id", Val.str "r1")] ∈
      active_after_request "s"
        [("type", Val.str "analytics_request"), ("message_id", Val.str "m1"),
         ("correlation_id", Val.str "c1"), ("request_id", Val.str "r1")] [] := by
  refine ⟨by decide, by decide, by decide, by decide⟩

/-- C2 counterexample: a `control` message whose subtype is not `ping` is
silently dropped — the dispatcher produces no outbound message at all, so
"at least one typed reply for every inbound message" fails here. -/
theorem c2_control_non_ping_silently_dropped :
    handle_message_outputs
        [("type", Val.str "control"), ("subtype", Val.str "status"),
         ("correlation_id", Val.str "c")] .success = [] ∧
    (handle_message_outputs
        [("type", Val.str "control"), ("subtype", Val.str "status"),
         ("correlation_id", Val.str "c")] .success).length = 0 := by
  refine ⟨by decide, by decide⟩

/-- C2 amended: every inbound message on an open connection is answered
with at least one typed message (a response, status, pong, or error
envelope) — except a message of type `control` whose subtype is not `ping`,
which receives no reply. -/
theorem c2_every_other_message_answered :
    ∀ (message : Item) (g : GenOutcome),
      ¬(py_get message "type" = Val.str "control" ∧
        py_get message "subtype" ≠ Val.str "ping") →
      1 ≤ (handle_message_outputs message g).length := by
  intro message g h
  by_cases h1 : py_get message "type" = Val.str "analytics_request"
  · cases g with
    | success => simp [handle_message_outputs, h1, handle_analytics_outputs, status_seq]
    | failAfter k =>
      simp only [handle_message_outputs, h1, if_pos, handle_analytics_outputs,
        List.length_append, List.length_cons, List.length_nil]
      omega
  · by_cases h2 : py_get message "type" = Val.str "ping"
    · simp [handle_message_outputs, h1, h2]
    · by_cases h3 : py_get message "type" = Val.str "control"
      · have hs : py_get message "subtype" = Val.str "ping" := by
          by_contra hs
          exact h ⟨h3, hs⟩
        simp [handle_message_outputs, h1, h2, h3, hs]
      · simp [handle_message_outputs, h1, h2, h3]

/-- C2 amended witness: a `ping` message receives a reply. -/
theorem c2_every_other_message_answered_witness :
    ¬(py_get [("type", Val.str "ping")] "type" = Val.str "control" ∧
      py_get [("type", Val.str "ping")] "subtype" ≠ Val.str "ping") ∧
    1 ≤ (handle_message_outputs [("type", Val.str "ping")] .success).length :=
  ⟨by decide, c2_every_other_message_answered [("type", Val.str "ping")] .success (by decide)⟩

/-- C3 counterexample: with the handler initialized and only
`openai_api_key` configured, `has_llm_configured` is true but `GET /health`
reports 503 `degraded` — the endpoint consults only `google_api_key`, not
the spec's "any LLM credential" notion. -/
theorem c3_health_ignores_openai_key :
    has_llm_configured { google_api_key := "", openai_api_key := "sk-test" } = true ∧
    health_check true { google_api_key := "", openai_api_key := "sk-test" } =
      { status_code := 503, status := "degraded", websocket_handler := "ready",
        llm := "not_configured" } := by
  refine ⟨by decide, by decide⟩

/-- C3 amended: `GET /health` returns 503 with status `degraded` whenever
`google_api_key` is unset (regardless of `openai_api_key`), and 200 with
status `healthy` whenever the gateway handler is initialized and
`google_api_key` is set. -/
theorem c3_health_google_key_only :
    ∀ (handler_initialized : Bool) (s : Settings),
      (s.google_api_key = "" →
        (health_check handler_initialized s).status_code = 503 ∧
        (health_check handler_initialized s).status = "degraded") ∧
      (handler_initialized = true → s.google_api_key ≠ "" →
        (health_check handler_initialized s).status_code = 200 ∧
        (health_check handler_initialized s).status = "healthy") := by
  intro handler_initialized s
  constructor
  · intro hg
    simp [health_check, hg]
  · intro hh hg
    simp [health_check, hh, hg]

/-- C3 amended witness: handler initialized with a Google key set is
healthy. -/
theorem c3_health_google_key_only_witness :
    ("g-key" : String) ≠ "" ∧
    (health_check true { google_api_key := "g-key", openai_api_key := "" }).status_code = 200 ∧
    (health_check true { google_api_key := "g-key", openai_api_key := "" }).status = "healthy" :=
  ⟨by decide,
   (c3_health_google_key_only true { google_api_key := "g-key", openai_api_key := "" }).2
     rfl (by decide)⟩

/-- C10: every message type outside the dispatcher's accepted set — in
particular the wire-vocabulary members `analytics_response`, `status`,
`error` and `pong` — is answered with a single `UNKNOWN_MESSAGE_TYPE` error
echoing `message.get("correlation_id")`; the accepted set
`analytics_request`/`ping`/`control` is a strict subset of
`WS_MESSAGE_TYPES`. -/
theorem c10_vocabulary_types_rejected :
    (∀ (message : Item) (g : GenOutcome),
      (∀ t ∈ accepted_types, py_get message "type" ≠ Val.str t) →
      handle_message_outputs message g =
        [.errorMsg "UNKNOWN_MESSAGE_TYPE" (py_get message "correlation_id")]) ∧
    (∀ t ∈ (["analytics_response", "status", "error", "pong"] : List String),
      t ∈ WS_MESSAGE_TYPES ∧ t ∉ accepted_types) ∧
    (∀ t ∈ accepted_types, t ∈ WS_MESSAGE_TYPES) := by
  refine ⟨?_, by decide, by decide⟩
  intro message g h
  have h1 := h "analytics_request" (by decide)
  have h2 := h "ping" (by decide)
  have h3 := h "control" (by decide)
  simp [handle_message_outputs, h1, h2, h3]

/-- C10 witness: an inbound `pong` message is answered with the
`UNKNOWN_MESSAGE_TYPE` error. -/
theorem c10_vocabulary_types_rejected_witness :
    (∀ t ∈ accepted_types,
      py_get [("type", Val.str "pong")] "type" ≠ Val.str t) ∧
    handle_message_outputs [("type", Val.str "pong")] .success =
      [.errorMsg "UNKNOWN_MESSAGE_TYPE" Val.null] :=
  ⟨by decide, c10_vocabulary_types_rejected.1 [("type", Val.str "pong")] .success (by decide)⟩
